import Mathlib

/-!
Shallow embedding of the Hospital Consignment Optimizer recommendation
pipeline (src/app.py).  Dates are modelled as day numbers (`Int`); a
missing or unparseable date (pandas `NaT` after
`pd.to_datetime(..., errors="coerce")`) is `none`.  The wall-clock value
read by the script (`today = datetime.today()`, app.py line 92) is an
explicit input of the embedded functions.
-/

/-- One row of the uploaded dataset after date parsing (app.py lines 56-58):
the three date columns are `Option Int`, `none` standing for `NaT`. -/
structure Row where
  Record_Type : String
  Hospital_ID : String
  Hospital_Name : String
  Product_ID : String
  Product_Name : String
  Product_Category : String
  Usage_Family : String
  Movement_Date : Option Int
  Movement_Qty : Int
  Current_Stock : Int
  Expiry_Date : Option Int
  Consignment_Start_Date : Option Int
deriving Repr, DecidableEq

/-- The raw dataset: its column names (`df.columns`) and its rows. -/
structure Dataset where
  columns : List String
  rows : List Row
deriving Repr, DecidableEq

/-- app.py lines 45-49: the required column list. -/
def required_cols : List String :=
  ["Record_Type", "Hospital_ID", "Hospital_Name", "Product_ID", "Product_Name",
   "Product_Category", "Usage_Family", "Movement_Date", "Movement_Qty",
   "Current_Stock", "Expiry_Date", "Consignment_Start_Date"]

/-- The required columns that are actually absent from the dataset. -/
def missing_cols (ds : Dataset) : List String :=
  required_cols.filter (fun c => !(ds.columns.contains c))

/-- One multiselect filter (app.py lines 79-89): an empty selection list is
falsy in Python, so it applies no filter at all. -/
def filterBy (sel : List String) (f : Row → String) (rows : List Row) : List Row :=
  if sel.isEmpty then rows else rows.filter (fun r => sel.contains (f r))

/-- The three sidebar filters, applied in source order:
hospital, then category, then product (app.py lines 79-89). -/
def applyFilters (hf cf pf : List String) (rows : List Row) : List Row :=
  filterBy pf Row.Product_Name
    (filterBy cf Row.Product_Category (filterBy hf Row.Hospital_Name rows))

/-- `Movement_Date >= cutoff` in pandas: `NaT >= cutoff` is `False`. -/
def dateGE (d : Option Int) (cutoff : Int) : Bool :=
  match d with
  | none => false
  | some x => cutoff ≤ x

/-- app.py line 99: movements in the trailing 180-day window. -/
def mov6m (today : Int) (l : List Row) : List Row :=
  l.filter (fun r => dateGE r.Movement_Date (today - 180))

/-- app.py line 111: movements in the trailing 540-day window. -/
def mov18m (today : Int) (l : List Row) : List Row :=
  l.filter (fun r => dateGE r.Movement_Date (today - 540))

/-- The groupby key used throughout: `(Hospital_Name, Product_Name)`. -/
def keyOf (r : Row) : String × String := (r.Hospital_Name, r.Product_Name)

/-- The rows of one groupby group. -/
def keyRows (k : String × String) (l : List Row) : List Row :=
  l.filter (fun r => keyOf r == k)

/-- app.py lines 101-106 with the `fillna(0)` of line 145: sum of
`Movement_Qty` over the key's 6-month movements (0 when there are none). -/
def consumption_6m (today : Int) (l : List Row) (k : String × String) : Int :=
  ((keyRows k (mov6m today l)).map Row.Movement_Qty).sum

/-- app.py lines 113-118: earliest movement date of the key in the 540-day
window; `none` when the key has no such movement (a NaN after the merge). -/
def start_date (today : Int) (l : List Row) (k : String × String) : Option Int :=
  ((keyRows k (mov18m today l)).filterMap Row.Movement_Date).min?

/-- app.py line 120: `(today - Start_Date).dt.days`; NaN stays NaN. -/
def days_active (today : Int) (l : List Row) (k : String × String) : Option Int :=
  (start_date today l k).map (fun d => today - d)

/-- app.py lines 125-132 with the `fillna(0)` of line 143: number of
movement rows of the key in the 540-day window. -/
def number_of_consumptions (today : Int) (l : List Row) (k : String × String) : Nat :=
  (keyRows k (mov18m today l)).length

/-- app.py lines 125-132 with the `fillna(0)` of line 144: maximum
`Movement_Qty` of the key in the 540-day window, 0 when there is none. -/
def max_consumption (today : Int) (l : List Row) (k : String × String) : Int :=
  (((keyRows k (mov18m today l)).map Row.Movement_Qty).max?).getD 0

/-- app.py lines 149-153: `Days_Active / Number_of_Consumptions` when the
count is positive, else the sentinel 999.  (When the count is positive the
key has a movement in the window, so `days_active` is present and the
`getD` default is never consulted.) -/
def activity_quotient (today : Int) (l : List Row) (k : String × String) : ℚ :=
  let n := number_of_consumptions today l k
  if 0 < n then ((days_active today l k).getD 0 : Int) / (n : ℚ) else 999

/-- app.py lines 155-159. -/
def classify (q : ℚ) : String :=
  if q ≤ 10 then "A"
  else if q ≤ 20 then "B"
  else if q ≤ 40 then "C"
  else "D"

/-- app.py lines 163-164: `safety_map = {"A":3,"B":2,"C":1,"D":0}`. -/
def safety_map (c : String) : Int :=
  if c == "A" then 3 else if c == "B" then 2 else if c == "C" then 1 else 0

/-- app.py line 169: `Recommended = Max_Consumption + SafetyStock`. -/
def recommendedOf (maxC : Int) (c : String) : Int :=
  maxC + safety_map c

/-- app.py lines 174-181. -/
def expiry_flag (today : Int) (date : Option Int) : String :=
  match date with
  | none => "🟩 OK"
  | some d =>
    if d < today then "🟥 EXPIRED"
    else if d ≤ today + 30 then "🟧 Expiring Soon"
    else "🟩 OK"

/-- app.py lines 235-241: the per-row stock action, with the expired
override of line 241 (the `.loc` overwrite) folded in per row. -/
def resolveAction (status : String) (diff : Int) : String :=
  if status == "🟥 EXPIRED" then "REMOVE – Expired"
  else if diff > 0 then "Reduce"
  else if diff < 0 then "Increase"
  else "OK"

/-- One row of `model_df` after all derived columns are added
(app.py lines 137-185 and 235-241). -/
structure OutRow where
  Hospital_Name : String
  Product_Name : String
  Product_Category : String
  Current_Stock : Int
  Expiry_Date : Option Int
  Consumption_6M : Int
  Start_Date : Option Int
  Days_Active : Option Int
  Number_of_Consumptions : Nat
  Max_Consumption : Int
  AvgWeekly : ℚ
  Activity_Quotient : ℚ
  Class : String
  SafetyStock : Int
  Recommended : Int
  Expiry_Status : String
  Difference : Int
  Action : String
deriving Repr, DecidableEq

/-- The derived columns of one inventory row, computed against the filtered
movement rows `fmov` (app.py lines 137-185, 235-241). -/
def computeRow (today : Int) (fmov : List Row) (r : Row) : OutRow :=
  { Hospital_Name := r.Hospital_Name
    Product_Name := r.Product_Name
    Product_Category := r.Product_Category
    Current_Stock := r.Current_Stock
    Expiry_Date := r.Expiry_Date
    Consumption_6M := consumption_6m today fmov (keyOf r)
    Start_Date := start_date today fmov (keyOf r)
    Days_Active := days_active today fmov (keyOf r)
    Number_of_Consumptions := number_of_consumptions today fmov (keyOf r)
    Max_Consumption := max_consumption today fmov (keyOf r)
    AvgWeekly := (consumption_6m today fmov (keyOf r) : Int) / (26 : ℚ)
    Activity_Quotient := activity_quotient today fmov (keyOf r)
    Class := classify (activity_quotient today fmov (keyOf r))
    SafetyStock := safety_map (classify (activity_quotient today fmov (keyOf r)))
    Recommended :=
      recommendedOf (max_consumption today fmov (keyOf r))
        (classify (activity_quotient today fmov (keyOf r)))
    Expiry_Status := expiry_flag today r.Expiry_Date
    Difference :=
      r.Current_Stock -
        recommendedOf (max_consumption today fmov (keyOf r))
          (classify (activity_quotient today fmov (keyOf r)))
    Action :=
      resolveAction (expiry_flag today r.Expiry_Date)
        (r.Current_Stock -
          recommendedOf (max_consumption today fmov (keyOf r))
            (classify (activity_quotient today fmov (keyOf r)))) }

/-- app.py line 61: the movement subset. -/
def movements (df : List Row) : List Row :=
  df.filter (fun r => r.Record_Type == "movement")

/-- app.py line 62: the inventory subset. -/
def inventory (df : List Row) : List Row :=
  df.filter (fun r => r.Record_Type == "inventory")

/-- The filtered movement rows (app.py lines 76-89). -/
def fmovOf (hf cf pf : List String) (df : List Row) : List Row :=
  applyFilters hf cf pf (movements df)

/-- The filtered inventory rows (app.py lines 76-89). -/
def finvOf (hf cf pf : List String) (df : List Row) : List Row :=
  applyFilters hf cf pf (inventory df)

/-- The whole recommendation engine for a given clock value `today`:
split, filter, and derive every column of each inventory row. -/
def runEngine (today : Int) (hf cf pf : List String) (df : List Row) : List OutRow :=
  (finvOf hf cf pf df).map (computeRow today (fmovOf hf cf pf df))

/-- app.py lines 51-53 followed by the engine: when any required column is
absent the script stops with the error message of line 52, whose payload is
the full `required_cols` list; otherwise the pipeline runs. -/
def runApp (today : Int) (hf cf pf : List String) (ds : Dataset) :
    Except (List String) (List OutRow) :=
  if required_cols.all (fun c => ds.columns.contains c) then
    Except.ok (runEngine today hf cf pf ds.rows)
  else
    Except.error required_cols

/-! Concrete rows used by witnesses and counterexamples. -/

/-- A concrete inventory row builder. -/
def mkInv (h p : String) (stock : Int) (exp : Option Int) : Row :=
  { Record_Type := "inventory", Hospital_ID := "H1", Hospital_Name := h,
    Product_ID := "P1", Product_Name := p, Product_Category := "Diagnostics",
    Usage_Family := "high", Movement_Date := none, Movement_Qty := 0,
    Current_Stock := stock, Expiry_Date := exp, Consignment_Start_Date := none }

/-- A concrete movement row builder. -/
def mkMov (h p : String) (d : Option Int) (q : Int) : Row :=
  { Record_Type := "movement", Hospital_ID := "H1", Hospital_Name := h,
    Product_ID := "P2", Product_Name := p, Product_Category := "Diagnostics",
    Usage_Family := "high", Movement_Date := d, Movement_Qty := q,
    Current_Stock := 0, Expiry_Date := none, Consignment_Start_Date := none }

/-- A dataset whose columns miss exactly `Expiry_Date`. -/
def dsMissingExpiry : Dataset :=
  { columns := ["Record_Type", "Hospital_ID", "Hospital_Name", "Product_ID",
      "Product_Name", "Product_Category", "Usage_Family", "Movement_Date",
      "Movement_Qty", "Current_Stock", "Consignment_Start_Date"],
    rows := [] }

/-- The output row of a concrete inventory row with zero movements,
`Current_Stock = 0` and no expiry date. -/
def c6row : OutRow :=
  computeRow 1000 (fmovOf [] [] [] [mkInv "Beta" "Tube" 0 none])
    (mkInv "Beta" "Tube" 0 none)

/-- Rowwise agreement on every column except `Hospital_ID` and
`Product_ID`. -/
def EqExceptIDs (a b : Row) : Prop :=
  a.Record_Type = b.Record_Type ∧ a.Hospital_Name = b.Hospital_Name ∧
  a.Product_Name = b.Product_Name ∧ a.Product_Category = b.Product_Category ∧
  a.Usage_Family = b.Usage_Family ∧ a.Movement_Date = b.Movement_Date ∧
  a.Movement_Qty = b.Movement_Qty ∧ a.Current_Stock = b.Current_Stock ∧
  a.Expiry_Date = b.Expiry_Date ∧
  a.Consignment_Start_Date = b.Consignment_Start_Date

instance (a b : Row) : Decidable (EqExceptIDs a b) := by
  unfold EqExceptIDs
  infer_instance

/-- A rewrite that scrambles only the ID columns. -/
def idScramble (r : Row) : Row :=
  { r with Hospital_ID := "X9", Product_ID := "Y7" }

/-! ### C1 — the expired override and its label -/

/-- C1 fails as stated: on an inventory row whose expiry date 999 lies
before the as-of day 1000, the expiry status is EXPIRED and the resolved
action is the code's literal "REMOVE – Expired" (app.py line 241), which is
not the claimed string "Remove – Expired". -/
theorem c1_label_counterexample :
    ((runEngine 1000 [] [] [] [mkInv "Alpha" "Kit" 10 (some 999)]).map
      (fun o => (o.Expiry_Status, o.Action))) =
        [("🟥 EXPIRED", "REMOVE – Expired")] ∧
    "REMOVE – Expired" ≠ "Remove – Expired" := by
  exact ⟨by decide, by decide⟩

/-- C1 (amended): for every row of the engine output, if the row's expiry
status is EXPIRED then its resolved action is "REMOVE – Expired" (the
code's capitalization), regardless of the value of Difference. -/
theorem expired_overrides_action (today : Int) (hf cf pf : List String)
    (df : List Row) (o : OutRow) (ho : o ∈ runEngine today hf cf pf df)
    (hs : o.Expiry_Status = "🟥 EXPIRED") :
    o.Action = "REMOVE – Expired" := by
  simp only [runEngine, List.mem_map] at ho
  obtain ⟨r, hr, rfl⟩ := ho
  simp only [computeRow] at hs ⊢
  simp only [resolveAction, hs, beq_self_eq_true, if_true]

unseal Rat.mul Rat.inv in
/-- Witness for `expired_overrides_action` at a concrete expired row. -/
theorem expired_overrides_action_witness :
    (computeRow 1000 (fmovOf [] [] [] [mkInv "Alpha" "Kit" 10 (some 999)])
      (mkInv "Alpha" "Kit" 10 (some 999))).Action = "REMOVE – Expired" :=
  expired_overrides_action 1000 [] [] [] [mkInv "Alpha" "Kit" 10 (some 999)]
    _ (by decide) (by decide)

/-! ### C2 — schema validation -/

/-- C2 fails as stated: with exactly `Expiry_Date` absent, the pipeline
halts, but the reported list is the full `required_cols` list (app.py
line 52), not the list of the absent columns. -/
theorem c2_missing_columns_counterexample :
    missing_cols dsMissingExpiry = ["Expiry_Date"] ∧
    runApp 0 [] [] [] dsMissingExpiry = Except.error required_cols ∧
    required_cols ≠ ["Expiry_Date"] := by
  refine ⟨by decide, rfl, by decide⟩

/-- C2 (amended): for every dataset missing at least one required column,
validation halts the pipeline before any computation and reports the fixed
full list of required column names (not the subset that is absent). -/
theorem schema_error_halts (today : Int) (hf cf pf : List String)
    (ds : Dataset) (h : missing_cols ds ≠ []) :
    runApp today hf cf pf ds = Except.error required_cols := by
  have hall : ¬ (required_cols.all (fun c => ds.columns.contains c) = true) := by
    intro hall
    apply h
    apply List.filter_eq_nil_iff.mpr
    intro c hc
    have hc2 := List.all_eq_true.mp hall c hc
    simp only [hc2, Bool.not_true]
    exact Bool.false_ne_true
  unfold runApp
  rw [if_neg hall]

/-- Witness for `schema_error_halts` on a dataset with no columns at all. -/
theorem schema_error_halts_witness :
    runApp 0 [] [] [] { columns := [], rows := [] } = Except.error required_cols :=
  schema_error_halts 0 [] [] [] { columns := [], rows := [] } (by decide)

/-! ### C7 — monotonicity of the additive model -/

/-- C7: holding the class (hence the safety stock) fixed, increasing the
maximum movement quantity never decreases the recommended target stock of
the additive model `Recommended = Max_Consumption + SafetyStock`. -/
theorem recommended_monotone (c : String) (m1 m2 : Int) (h : m1 ≤ m2) :
    recommendedOf m1 c ≤ recommendedOf m2 c := by
  unfold recommendedOf
  exact add_le_add_right h _

/-- Witness for `recommended_monotone` at class "A", quantities 2 ≤ 5. -/
theorem recommended_monotone_witness :
    recommendedOf 2 "A" ≤ recommendedOf 5 "A" :=
  recommended_monotone "A" 2 5 (by decide)

/-! ### C8 — output rows are exactly the filtered inventory rows -/

/-- C8: the keys of the engine output are, in order, exactly the keys of
the filtered inventory rows; a (hospital, product) pair with movement rows
but no inventory row therefore never appears in the output. -/
theorem output_rows_are_inventory_rows (today : Int) (hf cf pf : List String)
    (df : List Row) :
    (runEngine today hf cf pf df).map (fun o => (o.Hospital_Name, o.Product_Name)) =
      (finvOf hf cf pf df).map keyOf := by
  unfold runEngine
  rw [List.map_map]
  rfl

/-! ### C3 — the as-of instant -/

unseal Rat.mul Rat.inv in
/-- C3: the script has no as-of parameter; it reads the wall clock at
app.py line 92 (`today = datetime.today()`).  Modelling that clock value
as an input, the output depends on it: the same dataset evaluated at clock
day 100 and at clock day 300 yields different tables (the row's expiry
date 150 is first upcoming, then past). -/
theorem today_changes_output :
    runEngine 100 [] [] [] [mkInv "Alpha" "Kit" 5 (some 150)] ≠
      runEngine 300 [] [] [] [mkInv "Alpha" "Kit" 5 (some 150)] := by
  decide

/-! ### C4 — no "(Expiring Soon)" suffix is appended -/

/-- C4 fails as stated: an inventory row whose expiry date is 15 days after
the as-of day and whose Difference is 10 > 0 gets status "🟧 Expiring Soon"
and action "Reduce" — the code never appends "(Expiring Soon)" to the
label (app.py lines 235-239). -/
theorem c4_suffix_counterexample :
    ((runEngine 1000 [] [] [] [mkInv "Alpha" "Kit" 10 (some 1015)]).map
      (fun o => (o.Expiry_Status, o.Difference, o.Action))) =
        [("🟧 Expiring Soon", 10, "Reduce")] ∧
    "Reduce" ≠ "Reduce (Expiring Soon)" := by
  exact ⟨by decide, by decide⟩

/-- C4 (amended): for every output row whose expiry status is
"Expiring Soon" and whose Difference is strictly positive, the resolved
action is plain "Reduce"; no suffix is appended. -/
theorem expiring_soon_reduce (today : Int) (hf cf pf : List String)
    (df : List Row) (o : OutRow) (ho : o ∈ runEngine today hf cf pf df)
    (hs : o.Expiry_Status = "🟧 Expiring Soon") (hd : 0 < o.Difference) :
    o.Action = "Reduce" := by
  simp only [runEngine, List.mem_map] at ho
  obtain ⟨r, hr, rfl⟩ := ho
  simp only [computeRow] at hs hd ⊢
  simp only [resolveAction, hs]
  rw [if_neg (by decide), if_pos hd]

unseal Rat.mul Rat.inv in
/-- Witness for `expiring_soon_reduce` at a concrete expiring-soon row. -/
theorem expiring_soon_reduce_witness :
    (computeRow 1000 (fmovOf [] [] [] [mkInv "Alpha" "Kit" 10 (some 1015)])
      (mkInv "Alpha" "Kit" 10 (some 1015))).Action = "Reduce" :=
  expiring_soon_reduce 1000 [] [] [] [mkInv "Alpha" "Kit" 10 (some 1015)]
    _ (by decide) (by decide) (by decide)

/-! ### C5 — sign of Recommended -/

/-- A groupby group is a sublist of the grouped rows. -/
theorem keyRows_sub (k : String × String) (l : List Row) : keyRows k l ⊆ l := by
  unfold keyRows
  exact (List.filter_sublist _).subset

/-- The 540-day window is a sublist of the movement rows. -/
theorem mov18m_sub (today : Int) (l : List Row) : mov18m today l ⊆ l := by
  unfold mov18m
  exact (List.filter_sublist _).subset

/-- The 180-day window is a sublist of the movement rows. -/
theorem mov6m_sub (today : Int) (l : List Row) : mov6m today l ⊆ l := by
  unfold mov6m
  exact (List.filter_sublist _).subset

/-- A multiselect filter only drops rows. -/
theorem filterBy_sub (sel : List String) (f : Row → String) (l : List Row) :
    filterBy sel f l ⊆ l := by
  unfold filterBy
  split
  · exact fun a h => h
  · exact (List.filter_sublist _).subset

/-- The filter panel only drops rows. -/
theorem applyFilters_sub (hf cf pf : List String) (l : List Row) :
    applyFilters hf cf pf l ⊆ l := by
  unfold applyFilters
  exact ((filterBy_sub _ _ _).trans (filterBy_sub _ _ _)).trans (filterBy_sub _ _ _)

/-- A filtered movement row comes from the dataset and is a movement record. -/
theorem mem_fmovOf (hf cf pf : List String) (df : List Row) (r : Row)
    (h : r ∈ fmovOf hf cf pf df) : r ∈ df ∧ r.Record_Type = "movement" := by
  have h2 : r ∈ movements df := applyFilters_sub hf cf pf _ h
  unfold movements at h2
  have h3 := List.mem_filter.mp h2
  exact ⟨h3.1, by simpa using h3.2⟩

/-- The safety-stock table only holds the values 3, 2, 1, 0. -/
theorem safety_map_nonneg (c : String) : 0 ≤ safety_map c := by
  unfold safety_map
  split_ifs <;> decide

/-- When every movement quantity of the list is non-negative, so is the
windowed maximum (whose fillna default is 0). -/
theorem max_consumption_nonneg (today : Int) (l : List Row) (k : String × String)
    (h : ∀ r ∈ l, 0 ≤ r.Movement_Qty) : 0 ≤ max_consumption today l k := by
  unfold max_consumption
  rcases hm : ((keyRows k (mov18m today l)).map Row.Movement_Qty).max? with _ | m
  · simp
  · simp only [Option.getD_some]
    have hmem := List.max?_mem (fun a b => max_choice a b) hm
    obtain ⟨r, hr, rfl⟩ := List.mem_map.mp hmem
    exact h r (mov18m_sub today l (keyRows_sub _ _ hr))

unseal Rat.mul Rat.inv in
/-- C5 fails as stated: with a single recent movement of signed quantity
-5 for the key, the windowed maximum is -5, the class is D (quotient 100),
and `Recommended = -5 + 0` is negative. -/
theorem c5_negative_recommended_counterexample :
    ((runEngine 1000 [] [] [] [mkMov "Alpha" "Kit" (some 900) (-5),
        mkInv "Alpha" "Kit" 0 none]).map OutRow.Recommended = [-5]) ∧
    ¬ (0 ≤ (-5 : Int)) := by
  exact ⟨by decide, by decide⟩

/-- C5 (amended): for every input dataset that passes validation and whose
movement quantities are all non-negative, the Recommended target stock of
every output row is non-negative; with signed (negative) movement
quantities it can be negative. -/
theorem recommended_nonneg (today : Int) (hf cf pf : List String)
    (df : List Row) (hq : ∀ r ∈ df, 0 ≤ r.Movement_Qty) (o : OutRow)
    (ho : o ∈ runEngine today hf cf pf df) :
    0 ≤ o.Recommended := by
  simp only [runEngine, List.mem_map] at ho
  obtain ⟨r, hr, rfl⟩ := ho
  simp only [computeRow]
  unfold recommendedOf
  have hmax : 0 ≤ max_consumption today (fmovOf hf cf pf df) (keyOf r) :=
    max_consumption_nonneg today _ _
      (fun r' hr' => hq r' (mem_fmovOf hf cf pf df r' hr').1)
  exact add_nonneg hmax (safety_map_nonneg _)

unseal Rat.mul Rat.inv in
/-- Witness for `recommended_nonneg` with one non-negative movement. -/
theorem recommended_nonneg_witness :
    0 ≤ (computeRow 1000 (fmovOf [] [] [] [mkMov "Alpha" "Kit" (some 900) 5,
      mkInv "Alpha" "Kit" 0 none]) (mkInv "Alpha" "Kit" 0 none)).Recommended :=
  recommended_nonneg 1000 [] [] []
    [mkMov "Alpha" "Kit" (some 900) 5, mkInv "Alpha" "Kit" 0 none]
    (by decide) _ (by decide)

/-! ### C6 — keys with no movements in the lookback window -/

/-- Widening the cutoff keeps a row inside the window. -/
theorem dateGE_mono (d : Option Int) (t t' : Int) (h : t' ≤ t)
    (hd : dateGE d t = true) : dateGE d t' = true := by
  cases d with
  | none => simp [dateGE] at hd
  | some x =>
    simp only [dateGE, decide_eq_true_eq] at hd ⊢
    omega

/-- When no movement of the dataset with key `k` lies in the 540-day
window, the key's 18-month group is empty. -/
theorem keyRows_mov18m_nil (today : Int) (hf cf pf : List String)
    (df : List Row) (k : String × String)
    (hz : ∀ r ∈ df, r.Record_Type = "movement" → keyOf r = k →
      dateGE r.Movement_Date (today - 540) = false) :
    keyRows k (mov18m today (fmovOf hf cf pf df)) = [] := by
  rw [List.eq_nil_iff_forall_not_mem]
  intro r hr
  unfold keyRows at hr
  have h1 := List.mem_filter.mp hr
  unfold mov18m at h1
  have h2 := List.mem_filter.mp h1.1
  have h3 := mem_fmovOf hf cf pf df r h2.1
  have h4 : keyOf r = k := by simpa using h1.2
  have h5 := hz r h3.1 h3.2 h4
  rw [h2.2] at h5
  exact Bool.noConfusion h5

/-- When no movement of the dataset with key `k` lies in the 540-day
window, the key's 6-month group is empty too (the 180-day window is a
sub-window of the 540-day one). -/
theorem keyRows_mov6m_nil (today : Int) (hf cf pf : List String)
    (df : List Row) (k : String × String)
    (hz : ∀ r ∈ df, r.Record_Type = "movement" → keyOf r = k →
      dateGE r.Movement_Date (today - 540) = false) :
    keyRows k (mov6m today (fmovOf hf cf pf df)) = [] := by
  rw [List.eq_nil_iff_forall_not_mem]
  intro r hr
  unfold keyRows at hr
  have h1 := List.mem_filter.mp hr
  unfold mov6m at h1
  have h2 := List.mem_filter.mp h1.1
  have h3 := mem_fmovOf hf cf pf df r h2.1
  have h4 : keyOf r = k := by simpa using h1.2
  have h5 := hz r h3.1 h3.2 h4
  have h6 := dateGE_mono r.Movement_Date (today - 180) (today - 540)
    (by omega) h2.2
  rw [h6] at h5
  exact Bool.noConfusion h5

unseal Rat.mul Rat.inv in
/-- C6 fails as stated: an inventory row with zero movements and
`Current_Stock = 0` does get Class "D", SafetyStock 0, Recommended 0 and
Difference 0, but when its expiry date (day 900) is before the as-of day
1000 the resolved action is "REMOVE – Expired", not OK. -/
theorem c6_expired_zero_counterexample :
    ((runEngine 1000 [] [] [] [mkInv "Alpha" "Kit" 0 (some 900)]).map
      (fun o => (o.Class, o.SafetyStock, o.Current_Stock, o.Difference, o.Action))) =
        [("D", 0, 0, 0, "REMOVE – Expired")] ∧
    "REMOVE – Expired" ≠ "OK" := by
  exact ⟨by decide, by decide⟩

/-- C6 (amended): for every (hospital, product) key appearing in the
inventory rows with zero matching movements in the 540-day lookback
window, the output row has all aggregates zeroed, Class "D" and
SafetyStock 0, hence Recommended 0 and Difference = Current_Stock; when
additionally Current_Stock = 0 and the row's expiry status is not EXPIRED,
Difference = 0 and the action is OK. -/
theorem zero_movements_lowest_class (today : Int) (hf cf pf : List String)
    (df : List Row) (o : OutRow) (ho : o ∈ runEngine today hf cf pf df)
    (hz : ∀ r ∈ df, r.Record_Type = "movement" →
      keyOf r = (o.Hospital_Name, o.Product_Name) →
      dateGE r.Movement_Date (today - 540) = false) :
    o.Consumption_6M = 0 ∧ o.Number_of_Consumptions = 0 ∧
    o.Max_Consumption = 0 ∧ o.Class = "D" ∧ o.SafetyStock = 0 ∧
    o.Recommended = 0 ∧ o.Difference = o.Current_Stock ∧
    (o.Current_Stock = 0 → o.Expiry_Status ≠ "🟥 EXPIRED" →
      o.Difference = 0 ∧ o.Action = "OK") := by
  simp only [runEngine, List.mem_map] at ho
  obtain ⟨r, hr, rfl⟩ := ho
  simp only [computeRow] at hz ⊢
  have hz' : ∀ r' ∈ df, r'.Record_Type = "movement" → keyOf r' = keyOf r →
      dateGE r'.Movement_Date (today - 540) = false := fun r' h1 h2 h3 => hz r' h1 h2 h3
  have h18 := keyRows_mov18m_nil today hf cf pf df (keyOf r) hz'
  have h6 := keyRows_mov6m_nil today hf cf pf df (keyOf r) hz'
  have hn : number_of_consumptions today (fmovOf hf cf pf df) (keyOf r) = 0 := by
    unfold number_of_consumptions
    rw [h18]
    rfl
  have hmax : max_consumption today (fmovOf hf cf pf df) (keyOf r) = 0 := by
    unfold max_consumption
    rw [h18]
    rfl
  have hcon : consumption_6m today (fmovOf hf cf pf df) (keyOf r) = 0 := by
    unfold consumption_6m
    rw [h6]
    rfl
  have hq : activity_quotient today (fmovOf hf cf pf df) (keyOf r) = 999 := by
    unfold activity_quotient
    rw [hn]
    rfl
  have hcls : classify (activity_quotient today (fmovOf hf cf pf df) (keyOf r)) = "D" := by
    rw [hq]
    decide
  have hss : safety_map (classify (activity_quotient today (fmovOf hf cf pf df) (keyOf r))) = 0 := by
    rw [hcls]
    decide
  have hrec : recommendedOf (max_consumption today (fmovOf hf cf pf df) (keyOf r))
      (classify (activity_quotient today (fmovOf hf cf pf df) (keyOf r))) = 0 := by
    unfold recommendedOf
    rw [hmax, hcls]
    decide
  refine ⟨hcon, hn, hmax, hcls, hss, hrec, by rw [hrec, sub_zero], ?_⟩
  intro hstock hexp
  rw [hrec, hstock]
  refine ⟨by rw [sub_zero], ?_⟩
  unfold resolveAction
  have hbeq : (expiry_flag today r.Expiry_Date == "🟥 EXPIRED") = false :=
    beq_eq_false_iff_ne.mpr hexp
  rw [hbeq]
  decide

unseal Rat.mul Rat.inv in
/-- Witness for `zero_movements_lowest_class` at a concrete row. -/
theorem zero_movements_lowest_class_witness :
    c6row.Consumption_6M = 0 ∧ c6row.Number_of_Consumptions = 0 ∧
    c6row.Max_Consumption = 0 ∧ c6row.Class = "D" ∧ c6row.SafetyStock = 0 ∧
    c6row.Recommended = 0 ∧ c6row.Difference = c6row.Current_Stock ∧
    (c6row.Current_Stock = 0 → c6row.Expiry_Status ≠ "🟥 EXPIRED" →
      c6row.Difference = 0 ∧ c6row.Action = "OK") :=
  zero_movements_lowest_class 1000 [] [] [] [mkInv "Beta" "Tube" 0 none]
    c6row (by decide) (by decide)

/-! ### C10 — rows with unparseable movement dates -/

/-- A row with a missing date never enters the 180-day window. -/
theorem mov6m_cons_none (today : Int) (r : Row) (l : List Row)
    (h : r.Movement_Date = none) : mov6m today (r :: l) = mov6m today l := by
  unfold mov6m
  simp only [List.filter_cons, h]
  rw [if_neg (by simp [dateGE])]

/-- A row with a missing date never enters the 540-day window. -/
theorem mov18m_cons_none (today : Int) (r : Row) (l : List Row)
    (h : r.Movement_Date = none) : mov18m today (r :: l) = mov18m today l := by
  unfold mov18m
  simp only [List.filter_cons, h]
  rw [if_neg (by simp [dateGE])]

/-- Prepending a dated-`none` row to the movement pool leaves every derived
column of every inventory row unchanged. -/
theorem computeRow_cons_none (today : Int) (r : Row) (l : List Row) (x : Row)
    (h : r.Movement_Date = none) :
    computeRow today (r :: l) x = computeRow today l x := by
  unfold computeRow activity_quotient days_active start_date consumption_6m
    number_of_consumptions max_consumption
  rw [mov6m_cons_none today r l h, mov18m_cons_none today r l h]

/-- A multiselect filter either keeps or drops a prepended row. -/
theorem filterBy_cons (sel : List String) (f : Row → String) (a : Row)
    (l : List Row) :
    filterBy sel f (a :: l) = a :: filterBy sel f l ∨
    filterBy sel f (a :: l) = filterBy sel f l := by
  unfold filterBy
  by_cases hs : sel.isEmpty = true
  · rw [if_pos hs, if_pos hs]
    exact Or.inl rfl
  · rw [if_neg hs, if_neg hs, List.filter_cons]
    by_cases hc : sel.contains (f a) = true
    · rw [if_pos hc]
      exact Or.inl rfl
    · rw [if_neg hc]
      exact Or.inr rfl

/-- The filter panel either keeps or drops a prepended row. -/
theorem applyFilters_cons (hf cf pf : List String) (a : Row) (l : List Row) :
    applyFilters hf cf pf (a :: l) = a :: applyFilters hf cf pf l ∨
    applyFilters hf cf pf (a :: l) = applyFilters hf cf pf l := by
  unfold applyFilters
  rcases filterBy_cons hf Row.Hospital_Name a l with h1 | h1 <;> rw [h1]
  · rcases filterBy_cons cf Row.Product_Category a _ with h2 | h2 <;> rw [h2]
    · rcases filterBy_cons pf Row.Product_Name a _ with h3 | h3 <;> rw [h3]
      · exact Or.inl rfl
      · exact Or.inr rfl
    · exact Or.inr rfl
  · exact Or.inr rfl

/-- C10: a movement row whose `Movement_Date` failed to parse (was coerced
to `NaT`, i.e. `none`) contributes nothing to the 6-month consumption sum,
the first-activity date, the movement count or the maximum movement
quantity, and leaves the whole engine output unchanged. -/
theorem unparseable_dates_excluded (today : Int) (r : Row)
    (hmov : r.Record_Type = "movement") (hdate : r.Movement_Date = none) :
    (∀ l k, consumption_6m today (r :: l) k = consumption_6m today l k) ∧
    (∀ l k, start_date today (r :: l) k = start_date today l k) ∧
    (∀ l k, number_of_consumptions today (r :: l) k = number_of_consumptions today l k) ∧
    (∀ l k, max_consumption today (r :: l) k = max_consumption today l k) ∧
    (∀ hf cf pf df, runEngine today hf cf pf (r :: df) = runEngine today hf cf pf df) := by
  refine ⟨?_, ?_, ?_, ?_, ?_⟩
  · intro l k
    unfold consumption_6m
    rw [mov6m_cons_none today r l hdate]
  · intro l k
    unfold start_date
    rw [mov18m_cons_none today r l hdate]
  · intro l k
    unfold number_of_consumptions
    rw [mov18m_cons_none today r l hdate]
  · intro l k
    unfold max_consumption
    rw [mov18m_cons_none today r l hdate]
  · intro hf cf pf df
    unfold runEngine
    have hinv : finvOf hf cf pf (r :: df) = finvOf hf cf pf df := by
      unfold finvOf inventory
      simp only [List.filter_cons, hmov]
      rw [if_neg (by decide)]
    have hmv : movements (r :: df) = r :: movements df := by
      unfold movements
      simp only [List.filter_cons, hmov]
      rw [if_pos (by decide)]
    rw [hinv]
    unfold fmovOf
    rw [hmv]
    rcases applyFilters_cons hf cf pf r (movements df) with h1 | h1 <;> rw [h1]
    exact List.map_congr_left (fun x _ => computeRow_cons_none today r _ x hdate)

/-- Witness for `unparseable_dates_excluded`: a movement of quantity 7
with an unparseable date changes nothing. -/
theorem unparseable_dates_excluded_witness :
    runEngine 1000 [] [] []
        (mkMov "Gamma" "Swab" none 7 :: [mkInv "Gamma" "Swab" 3 none]) =
      runEngine 1000 [] [] [] [mkInv "Gamma" "Swab" 3 none] :=
  (unparseable_dates_excluded 1000 (mkMov "Gamma" "Swab" none 7) rfl rfl).2.2.2.2
    [] [] [] [mkInv "Gamma" "Swab" 3 none]

/-! ### C9 — aggregation and joining ignore the ID columns -/

/-- Rows agreeing on everything but the IDs have the same groupby key. -/
theorem keyOf_eq_of_eqExceptIDs (a b : Row) (h : EqExceptIDs a b) :
    keyOf a = keyOf b := by
  unfold keyOf
  rw [h.2.1, h.2.2.1]

/-- A filter whose predicate is preserved by `m` commutes with `map m`. -/
theorem filter_map_comm (p : Row → Bool) (m : Row → Row) :
    ∀ l : List Row, (∀ r ∈ l, p (m r) = p r) →
      (l.map m).filter p = (l.filter p).map m
  | [], _ => rfl
  | a :: t, h => by
    simp only [List.map_cons, List.filter_cons]
    rw [h a (List.mem_cons_self a t)]
    by_cases hp : p a = true
    · rw [if_pos hp, if_pos hp, List.map_cons,
        filter_map_comm p m t (fun r hr => h r (List.mem_cons_of_mem a hr))]
    · rw [if_neg hp, if_neg hp,
        filter_map_comm p m t (fun r hr => h r (List.mem_cons_of_mem a hr))]

/-- Mapping a projection preserved by `m` ignores `m`. -/
theorem map_map_congr {α : Type} (f : Row → α) (m : Row → Row) (l : List Row)
    (h : ∀ r ∈ l, f (m r) = f r) : (l.map m).map f = l.map f := by
  rw [List.map_map]
  exact List.map_congr_left h

/-- `filterMap Movement_Date` ignores an `m` preserving the date. -/
theorem filterMap_map_congr (m : Row → Row) :
    ∀ l : List Row, (∀ r ∈ l, (m r).Movement_Date = r.Movement_Date) →
      (l.map m).filterMap Row.Movement_Date = l.filterMap Row.Movement_Date
  | [], _ => rfl
  | a :: t, h => by
    simp only [List.map_cons, List.filterMap_cons]
    rw [h a (List.mem_cons_self a t),
      filterMap_map_congr m t (fun r hr => h r (List.mem_cons_of_mem a hr))]

/-- The 180-day window commutes with an ID-only rewrite. -/
theorem mov6m_map_comm (today : Int) (m : Row → Row) (l : List Row)
    (h : ∀ r ∈ l, EqExceptIDs (m r) r) :
    mov6m today (l.map m) = (mov6m today l).map m := by
  unfold mov6m
  exact filter_map_comm _ m l (fun r hr => by rw [(h r hr).2.2.2.2.2.1])

/-- The 540-day window commutes with an ID-only rewrite. -/
theorem mov18m_map_comm (today : Int) (m : Row → Row) (l : List Row)
    (h : ∀ r ∈ l, EqExceptIDs (m r) r) :
    mov18m today (l.map m) = (mov18m today l).map m := by
  unfold mov18m
  exact filter_map_comm _ m l (fun r hr => by rw [(h r hr).2.2.2.2.2.1])

/-- Grouping commutes with a key-preserving rewrite. -/
theorem keyRows_map_comm (k : String × String) (m : Row → Row) (l : List Row)
    (h : ∀ r ∈ l, keyOf (m r) = keyOf r) :
    keyRows k (l.map m) = (keyRows k l).map m := by
  unfold keyRows
  exact filter_map_comm _ m l (fun r hr => by rw [h r hr])

/-- The 6-month consumption sum ignores the ID columns. -/
theorem consumption_6m_map_comm (today : Int) (m : Row → Row) (l : List Row)
    (k : String × String) (h : ∀ r ∈ l, EqExceptIDs (m r) r) :
    consumption_6m today (l.map m) k = consumption_6m today l k := by
  unfold consumption_6m
  rw [mov6m_map_comm today m l h,
    keyRows_map_comm k m (mov6m today l)
      (fun r hr => keyOf_eq_of_eqExceptIDs _ _ (h r (mov6m_sub today l hr))),
    map_map_congr Row.Movement_Qty m (keyRows k (mov6m today l))
      (fun r hr =>
        (h r (mov6m_sub today l (keyRows_sub k _ hr))).2.2.2.2.2.2.1)]

/-- The first-activity date ignores the ID columns. -/
theorem start_date_map_comm (today : Int) (m : Row → Row) (l : List Row)
    (k : String × String) (h : ∀ r ∈ l, EqExceptIDs (m r) r) :
    start_date today (l.map m) k = start_date today l k := by
  unfold start_date
  rw [mov18m_map_comm today m l h,
    keyRows_map_comm k m (mov18m today l)
      (fun r hr => keyOf_eq_of_eqExceptIDs _ _ (h r (mov18m_sub today l hr))),
    filterMap_map_congr m (keyRows k (mov18m today l))
      (fun r hr =>
        (h r (mov18m_sub today l (keyRows_sub k _ hr))).2.2.2.2.2.1)]

/-- Days active ignores the ID columns. -/
theorem days_active_map_comm (today : Int) (m : Row → Row) (l : List Row)
    (k : String × String) (h : ∀ r ∈ l, EqExceptIDs (m r) r) :
    days_active today (l.map m) k = days_active today l k := by
  unfold days_active
  rw [start_date_map_comm today m l k h]

/-- The movement count ignores the ID columns. -/
theorem number_of_consumptions_map_comm (today : Int) (m : Row → Row)
    (l : List Row) (k : String × String) (h : ∀ r ∈ l, EqExceptIDs (m r) r) :
    number_of_consumptions today (l.map m) k = number_of_consumptions today l k := by
  unfold number_of_consumptions
  rw [mov18m_map_comm today m l h,
    keyRows_map_comm k m (mov18m today l)
      (fun r hr => keyOf_eq_of_eqExceptIDs _ _ (h r (mov18m_sub today l hr))),
    List.length_map]

/-- The windowed maximum ignores the ID columns. -/
theorem max_consumption_map_comm (today : Int) (m : Row → Row) (l : List Row)
    (k : String × String) (h : ∀ r ∈ l, EqExceptIDs (m r) r) :
    max_consumption today (l.map m) k = max_consumption today l k := by
  unfold max_consumption
  rw [mov18m_map_comm today m l h,
    keyRows_map_comm k m (mov18m today l)
      (fun r hr => keyOf_eq_of_eqExceptIDs _ _ (h r (mov18m_sub today l hr))),
    map_map_congr Row.Movement_Qty m (keyRows k (mov18m today l))
      (fun r hr =>
        (h r (mov18m_sub today l (keyRows_sub k _ hr))).2.2.2.2.2.2.1)]

/-- The activity quotient ignores the ID columns. -/
theorem activity_quotient_map_comm (today : Int) (m : Row → Row) (l : List Row)
    (k : String × String) (h : ∀ r ∈ l, EqExceptIDs (m r) r) :
    activity_quotient today (l.map m) k = activity_quotient today l k := by
  unfold activity_quotient
  rw [number_of_consumptions_map_comm today m l k h,
    days_active_map_comm today m l k h]

/-- A derived row is unchanged by an ID-only rewrite of the dataset. -/
theorem computeRow_map_comm (today : Int) (m : Row → Row) (fmov : List Row)
    (hm : ∀ r ∈ fmov, EqExceptIDs (m r) r) (x : Row)
    (hx : EqExceptIDs (m x) x) :
    computeRow today (fmov.map m) (m x) = computeRow today fmov x := by
  have hkey : keyOf (m x) = keyOf x := keyOf_eq_of_eqExceptIDs _ _ hx
  obtain ⟨e1, e2, e3, e4, e5, e6, e7, e8, e9, e10⟩ := hx
  unfold computeRow
  rw [hkey, e2, e3, e4, e8, e9,
    consumption_6m_map_comm today m fmov (keyOf x) hm,
    start_date_map_comm today m fmov (keyOf x) hm,
    days_active_map_comm today m fmov (keyOf x) hm,
    number_of_consumptions_map_comm today m fmov (keyOf x) hm,
    max_consumption_map_comm today m fmov (keyOf x) hm,
    activity_quotient_map_comm today m fmov (keyOf x) hm]

/-- The filtered inventory rows come from the dataset. -/
theorem finvOf_sub (hf cf pf : List String) (df : List Row) :
    finvOf hf cf pf df ⊆ df := by
  unfold finvOf inventory
  exact fun a ha =>
    (List.filter_sublist _).subset (applyFilters_sub hf cf pf _ ha)

/-- A multiselect filter commutes with an `m` preserving its field. -/
theorem filterBy_map_comm (sel : List String) (f : Row → String)
    (m : Row → Row) (l : List Row) (h : ∀ r ∈ l, f (m r) = f r) :
    filterBy sel f (l.map m) = (filterBy sel f l).map m := by
  unfold filterBy
  by_cases hs : sel.isEmpty = true
  · rw [if_pos hs, if_pos hs]
  · rw [if_neg hs, if_neg hs]
    exact filter_map_comm _ m l (fun r hr => by rw [h r hr])

/-- The filter panel commutes with a name-preserving rewrite. -/
theorem applyFilters_map_comm (hf cf pf : List String) (m : Row → Row)
    (l : List Row) (h : ∀ r ∈ l, EqExceptIDs (m r) r) :
    applyFilters hf cf pf (l.map m) = (applyFilters hf cf pf l).map m := by
  unfold applyFilters
  rw [filterBy_map_comm hf Row.Hospital_Name m l (fun r hr => (h r hr).2.1),
    filterBy_map_comm cf Row.Product_Category m (filterBy hf Row.Hospital_Name l)
      (fun r hr => (h r (filterBy_sub hf Row.Hospital_Name l hr)).2.2.2.1),
    filterBy_map_comm pf Row.Product_Name m
      (filterBy cf Row.Product_Category (filterBy hf Row.Hospital_Name l))
      (fun r hr =>
        (h r (filterBy_sub hf Row.Hospital_Name l
          (filterBy_sub cf Row.Product_Category _ hr))).2.2.1)]

/-- C9: the engine is keyed on (Hospital_Name, Product_Name) only — an
arbitrary rewrite of the Hospital_ID / Product_ID columns (all other
columns kept) leaves the whole output table unchanged, so movements whose
rows carry distinct Product_IDs but identical names land in the same
aggregate key and match the same inventory rows. -/
theorem engine_ignores_ids (today : Int) (hf cf pf : List String)
    (df : List Row) (m : Row → Row) (hm : ∀ r ∈ df, EqExceptIDs (m r) r) :
    runEngine today hf cf pf (df.map m) = runEngine today hf cf pf df := by
  unfold runEngine
  have hmov : movements (df.map m) = (movements df).map m := by
    unfold movements
    exact filter_map_comm _ m df (fun r hr => by rw [(hm r hr).1])
  have hinv : inventory (df.map m) = (inventory df).map m := by
    unfold inventory
    exact filter_map_comm _ m df (fun r hr => by rw [(hm r hr).1])
  have hfg : fmovOf hf cf pf (df.map m) = (fmovOf hf cf pf df).map m := by
    unfold fmovOf
    rw [hmov]
    exact applyFilters_map_comm hf cf pf m (movements df)
      (fun r hr => hm r ((List.filter_sublist _).subset hr))
  have hig : finvOf hf cf pf (df.map m) = (finvOf hf cf pf df).map m := by
    unfold finvOf
    rw [hinv]
    exact applyFilters_map_comm hf cf pf m (inventory df)
      (fun r hr => hm r ((List.filter_sublist _).subset hr))
  rw [hfg, hig, List.map_map]
  apply List.map_congr_left
  intro x hx
  exact computeRow_map_comm today m (fmovOf hf cf pf df)
    (fun r hr => hm r (mem_fmovOf hf cf pf df r hr).1) x
    (hm x (finvOf_sub hf cf pf df hx))

unseal Rat.mul Rat.inv in
/-- Witness for `engine_ignores_ids`: scrambling the IDs of a movement row
and an inventory row that share names changes nothing. -/
theorem engine_ignores_ids_witness :
    runEngine 1000 [] [] []
        ([mkMov "Alpha" "Kit" (some 950) 4, mkInv "Alpha" "Kit" 2 none].map idScramble) =
      runEngine 1000 [] [] [] [mkMov "Alpha" "Kit" (some 950) 4, mkInv "Alpha" "Kit" 2 none] :=
  engine_ignores_ids 1000 [] [] []
    [mkMov "Alpha" "Kit" (some 950) 4, mkInv "Alpha" "Kit" 2 none]
    idScramble (by decide)
